import Mathlib

/-!
Verification of the spyglasses-sdk pattern-classification engine.

The definitions below are a shallow embedding of the TypeScript sources:
- `src/utils/detector.ts` (specificity scorer, fast and detailed classifier),
- `src/core/spyglasses.ts` (the `Spyglasses` class: rule resolver,
  `detectBot`, `detectAiReferrer`, the `detect` facade, `syncPatterns`).

JavaScript strings are modelled as Lean `String`; regular-expression objects
are modelled as black-box matchers (`String → Bool`), with compilation as a
partial oracle since `new RegExp` can throw. Decimal confidence literals
(0.9, 0.7, 1.0) are modelled as exact rationals.
-/

/-- JavaScript `a || d` for an optional string field: `undefined`/`null` and
the empty string are falsy. -/
def jsOr (o : Option String) (d : String) : String :=
  match o with
  | Option.none => d
  | some s => if s = "" then d else s

/-- JavaScript `s || d` for a required string field: only `""` is falsy. -/
def jsDefault (s d : String) : String :=
  if s = "" then d else s

/-- Character class of the regex `[a-zA-Z0-9]` used by the specificity scorer. -/
def isAlnumChar (c : Char) : Bool :=
  c.isAlphanum

/-- Character class of the regex `[\.\*\+\?]` used by the specificity scorer. -/
def isMetaChar (c : Char) : Bool :=
  c == '.' || c == '*' || c == '+' || c == '?'

/-- Substring test on character lists (JavaScript `hay.includes(needle)`). -/
def listContainsSeq (needle : List Char) : List Char → Bool
  | [] => needle.isEmpty
  | c :: t => needle.isPrefixOf (c :: t) || listContainsSeq needle t

/-- JavaScript `hay.includes(needle)` on strings. -/
def strContains (hay needle : String) : Bool :=
  listContainsSeq needle.data hay.data

/-- JavaScript `s.toLowerCase()` on the ASCII strings handled by this SDK
(defined over the character list so that it evaluates in the kernel). -/
def strToLower (s : String) : String :=
  String.mk (s.data.map Char.toLower)

/-- Literal substring `\/[0-9]` checked by the scorer (escaped version marker). -/
def versionMarker : String :=
  "\\/[0-9]"

/-- Brand markers of the alternation regex in `getPatternSpecificity`. -/
def brandMarkers : List String :=
  ["ChatGPT", "Claude", "Perplexity", "Googlebot", "bingbot", "GPTBot", "OAI-"]

/-- Whole-string case-insensitive match of `^(?:bot|crawler|spider)$`. -/
def isGenericBareWord (p : String) : Bool :=
  strToLower p == "bot" || strToLower p == "crawler" || strToLower p == "spider"

/-- Specificity scorer, from `getPatternSpecificity` in `src/utils/detector.ts`
(lines 19-44), accumulator style as in the source. -/
def getPatternSpecificity (pattern : String) : Int :=
  let score : Int := 0
  let score := score + (pattern.data.countP isAlnumChar : Int) * 2
  let score := score - (pattern.data.countP isMetaChar : Int) * 3
  let score := if strContains pattern versionMarker then score + 5 else score
  let score := if brandMarkers.any (fun b => strContains pattern b) then score + 10 else score
  let score := if isGenericBareWord pattern then score - 15 else score
  score

/-- Closed-form linear combination stated by the specification for the
specificity score. -/
def specificityFormula (pattern : String) : Int :=
  (pattern.data.countP isAlnumChar : Int) * 2
    - (pattern.data.countP isMetaChar : Int) * 3
    + (if strContains pattern versionMarker then 5 else 0)
    + (if brandMarkers.any (fun b => strContains pattern b) then 10 else 0)
    - (if isGenericBareWord pattern then 15 else 0)

namespace Detector

/-- Compiled pattern entry of `src/utils/detector.ts`. The compiled regular
expression is modelled as a black-box matcher `String → Bool`. -/
structure CompiledPattern where
  regexp : String → Bool
  name : String
  category : String
  company : Option String := Option.none
  specificity : Int
  originalPattern : String

/-- Detection result of `src/types/detector.ts`: optional fields are absent
(`Option.none`) when the source leaves them out of the object literal. -/
structure DetectionResult where
  isBot : Bool
  category : Option String := Option.none
  name : Option String := Option.none
  company : Option String := Option.none
  confidence : Option Rat := Option.none
deriving DecidableEq

/-- Confidence tier for exactly one matching pattern (source literal 0.9). -/
def confidenceSingle : Rat := 0.9

/-- Confidence tier for two or more matching patterns (source literal 0.7). -/
def confidenceMulti : Rat := 0.7

/-- Confidence tier for no match (source literal 1.0). -/
def confidenceNone : Rat := 1.0

/-- Stable insertion step for the descending-specificity sort. -/
def insertBySpecificity (x : CompiledPattern) : List CompiledPattern → List CompiledPattern
  | [] => [x]
  | y :: ys =>
    if y.specificity ≤ x.specificity then x :: y :: ys
    else y :: insertBySpecificity x ys

/-- Model of `matches.sort((a, b) => b.specificity - a.specificity)`: a stable
sort by descending specificity (ECMAScript array sort is stable). -/
def sortBySpecificity : List CompiledPattern → List CompiledPattern
  | [] => []
  | x :: xs => insertBySpecificity x (sortBySpecificity xs)

/-- Negative result `{isBot:false, category:'Unknown', confidence:1.0}`. -/
def noMatchResult : DetectionResult :=
  { isBot := false, category := some ("Unknown"), confidence := some confidenceNone }

/-- Detailed classifier `detectDetailed` of `src/utils/detector.ts`
(lines 196-265), parametrized by the two compiled pattern groups that the
source builds from its bundled JSON data. -/
def detectDetailed (customPatterns crawlerUserAgentPatterns : List CompiledPattern)
    (userAgent : String) : DetectionResult :=
  if userAgent = "" then noMatchResult
  else
    let customMatches := customPatterns.filter (fun p => p.regexp userAgent)
    match sortBySpecificity customMatches with
    | bestMatch :: _ =>
      { isBot := true, category := some bestMatch.category, name := some bestMatch.name,
        company := bestMatch.company,
        confidence := some (if customMatches.length = 1 then confidenceSingle else confidenceMulti) }
    | [] =>
      let crawlerMatches := crawlerUserAgentPatterns.filter (fun p => p.regexp userAgent)
      match sortBySpecificity crawlerMatches with
      | bestMatch :: _ =>
        { isBot := true, category := some bestMatch.category, name := some bestMatch.name,
          company := bestMatch.company,
          confidence := some (if crawlerMatches.length = 1 then confidenceSingle else confidenceMulti) }
      | [] =>
        if strContains (strToLower userAgent) ("scraper")
            || strContains (strToLower userAgent) ("crawler")
            || strContains (strToLower userAgent) ("spider") then
          { isBot := true, category := some ("Scraper"), name := some ("generic-scraper"),
            confidence := some confidenceMulti }
        else noMatchResult

/-- Short-circuiting scan of the fast entry point over one combined list. -/
def detectScan (userAgent : String) : List CompiledPattern → DetectionResult
  | [] => { isBot := false }
  | pattern :: rest =>
    if pattern.regexp userAgent then { isBot := true }
    else detectScan userAgent rest

/-- Fast boolean entry point `detect` of `src/utils/detector.ts` (lines
182-189): iterates custom patterns then crawler patterns, first hit wins. -/
def detect (customPatterns crawlerUserAgentPatterns : List CompiledPattern)
    (userAgent : String) : DetectionResult :=
  detectScan userAgent (customPatterns ++ crawlerUserAgentPatterns)

end Detector

/-- Bot pattern record of `src/types/index.ts`; optional or nullable fields
are `Option`, optional booleans default to `false` (JavaScript truthiness). -/
structure BotPattern where
  pattern : String
  url : Option String := Option.none
  type : String
  category : String
  subcategory : String
  company : Option String := Option.none
  isCompliant : Bool := false
  isAiModelTrainer : Bool := false
  intent : Option String := Option.none
deriving DecidableEq

/-- Bot info record of `src/types/index.ts`, as built inside `detectBot`. -/
structure BotInfo where
  pattern : Option String := Option.none
  type : String
  category : String
  subcategory : String
  company : Option String
  isCompliant : Bool
  isAiModelTrainer : Bool
  intent : String
  url : Option String := Option.none
deriving DecidableEq

/-- AI referrer record of `src/types/index.ts`. -/
structure AiReferrerInfo where
  id : String
  name : String
  company : String
  url : Option String := Option.none
  patterns : List String
  description : Option String := Option.none
deriving DecidableEq

/-- The `sourceType` discriminator `'bot' | 'ai_referrer' | 'none'`. -/
inductive SourceType
  | bot
  | aiReferrer
  | none
deriving DecidableEq

/-- The optional `info` payload of a detection result. -/
inductive ResultInfo
  | noInfo
  | ofBot (info : BotInfo)
  | ofAiReferrer (info : AiReferrerInfo)
deriving DecidableEq

/-- Detection result of the `Spyglasses` class (`src/types/index.ts`). -/
structure DetectionResult where
  isBot : Bool
  shouldBlock : Bool
  sourceType : SourceType
  matchedPattern : Option String := Option.none
  info : ResultInfo := ResultInfo.noInfo
deriving DecidableEq

/-- The negative result `{isBot:false, shouldBlock:false, sourceType:'none'}`
returned by every unmatched path of the class. -/
def negativeResult : DetectionResult :=
  { isBot := false, shouldBlock := false, sourceType := SourceType.none }

/-- Shape of the parsed remote payload consumed by `syncPatterns`: the
`patterns` field of the cast-but-unchecked JSON may be absent (or otherwise
falsy), present but not an array, or a proper array. -/
inductive PatternsField
  | missing
  | nonArray
  | arr (patterns : List BotPattern)
deriving DecidableEq

/-- Remote pattern snapshot (`ApiPatternResponse` of `src/types/index.ts`)
as it arrives from `response.json()`: fields may be missing or malformed. -/
structure ApiPatternResponse where
  version : Option String := Option.none
  patterns : PatternsField
  aiReferrers : Option (List AiReferrerInfo) := Option.none
deriving DecidableEq

/-- External collaborators of the class: `new RegExp(p, 'i')` is a partial
compilation oracle (`Option.none` models a thrown `SyntaxError`), and
`new URL(r).hostname` is a partial hostname parser. Both are deterministic
black boxes for the engine. -/
structure RegexEnv where
  compile : String → Option (String → Bool)
  parseHostname : String → Option String

/-- State of a `Spyglasses` instance (`src/core/spyglasses.ts`). Endpoint
and debug configuration is omitted: it only affects logging, not any result.
The lazily populated regex cache is kept as association data; since `compile`
is a pure oracle, cache hits and misses yield the same matcher, so the
detection functions below read patterns through `compile` directly. -/
structure Spyglasses where
  apiKey : String := ""
  blockAiModelTrainers : Bool := false
  customBlocks : List String := []
  customAllows : List String := []
  patterns : List BotPattern := []
  aiReferrers : List AiReferrerInfo := []
  patternRegexCache : List (String × (String → Bool)) := []
  lastPatternSync : Nat := 0
  patternVersion : String := "1.0.0"

/-- Rule resolver `shouldBlockPattern` of `src/core/spyglasses.ts`
(lines 329-369). -/
def Spyglasses.shouldBlockPattern (s : Spyglasses) (patternData : BotPattern) : Bool :=
  if s.customAllows.contains ("pattern:" ++ patternData.pattern) then false
  else
    let category := jsDefault patternData.category ("Unknown")
    let subcategory := jsDefault patternData.subcategory ("Unclassified")
    let type := jsDefault patternData.type ("unknown")
    if s.customAllows.contains ("category:" ++ category)
        || s.customAllows.contains ("subcategory:" ++ category ++ ":" ++ subcategory)
        || s.customAllows.contains ("type:" ++ category ++ ":" ++ subcategory ++ ":" ++ type) then
      false
    else if s.customBlocks.contains ("pattern:" ++ patternData.pattern) then true
    else if s.customBlocks.contains ("category:" ++ category)
        || s.customBlocks.contains ("subcategory:" ++ category ++ ":" ++ subcategory)
        || s.customBlocks.contains ("type:" ++ category ++ ":" ++ subcategory ++ ":" ++ type) then
      true
    else if s.blockAiModelTrainers && patternData.isAiModelTrainer then true
    else false

/-- Directive match at any of the four granularities, against one list of
directives; used to state rule-precedence properties. -/
def directiveMatches (directives : List String) (patternData : BotPattern) : Bool :=
  let category := jsDefault patternData.category ("Unknown")
  let subcategory := jsDefault patternData.subcategory ("Unclassified")
  let type := jsDefault patternData.type ("unknown")
  directives.contains ("pattern:" ++ patternData.pattern)
    || directives.contains ("category:" ++ category)
    || directives.contains ("subcategory:" ++ category ++ ":" ++ subcategory)
    || directives.contains ("type:" ++ category ++ ":" ++ subcategory ++ ":" ++ type)

/-- Rule resolver as worded by the specification: six steps in order, first
decisive rule wins. -/
def ruleResolverSpec (allows blocks : List String) (blockAiModelTrainers : Bool)
    (patternData : BotPattern) : Bool :=
  let category := jsDefault patternData.category ("Unknown")
  let subcategory := jsDefault patternData.subcategory ("Unclassified")
  let type := jsDefault patternData.type ("unknown")
  if allows.contains ("pattern:" ++ patternData.pattern) then false
  else if allows.contains ("category:" ++ category)
      || allows.contains ("subcategory:" ++ category ++ ":" ++ subcategory)
      || allows.contains ("type:" ++ category ++ ":" ++ subcategory ++ ":" ++ type) then false
  else if blocks.contains ("pattern:" ++ patternData.pattern) then true
  else if blocks.contains ("category:" ++ category)
      || blocks.contains ("subcategory:" ++ category ++ ":" ++ subcategory)
      || blocks.contains ("type:" ++ category ++ ":" ++ subcategory ++ ":" ++ type) then true
  else if blockAiModelTrainers && patternData.isAiModelTrainer then true
  else false

/-- Bot info object built inside `detectBot` on a match. -/
def mkBotInfo (pattern : BotPattern) : BotInfo :=
  { pattern := some pattern.pattern,
    type := jsDefault pattern.type ("unknown"),
    category := jsDefault pattern.category ("Unknown"),
    subcategory := jsDefault pattern.subcategory ("Unclassified"),
    company := pattern.company,
    isCompliant := pattern.isCompliant,
    isAiModelTrainer := pattern.isAiModelTrainer,
    intent := jsOr pattern.intent ("unknown"),
    url := pattern.url }

/-- Pattern loop of `detectBot`: a pattern whose compilation throws is
skipped by the surrounding `try`/`catch`; the first matching pattern wins. -/
def Spyglasses.detectBotScan (env : RegexEnv) (s : Spyglasses) (userAgent : String) :
    List BotPattern → DetectionResult
  | [] => negativeResult
  | pattern :: rest =>
    match env.compile pattern.pattern with
    | Option.none => Spyglasses.detectBotScan env s userAgent rest
    | some regex =>
      if regex userAgent then
        { isBot := true, shouldBlock := s.shouldBlockPattern pattern,
          sourceType := SourceType.bot, matchedPattern := some pattern.pattern,
          info := ResultInfo.ofBot (mkBotInfo pattern) }
      else Spyglasses.detectBotScan env s userAgent rest

/-- Bot detector `detectBot` of `src/core/spyglasses.ts` (lines 376-454). -/
def Spyglasses.detectBot (env : RegexEnv) (s : Spyglasses) (userAgent : String) :
    DetectionResult :=
  if userAgent = "" then negativeResult
  else Spyglasses.detectBotScan env s userAgent s.patterns

/-- Inner loop over one referrer entry's domain fragments. -/
def referrerPatternScan (hostname : String) : List String → Option String
  | [] => Option.none
  | pattern :: rest =>
    if strContains hostname pattern then some pattern
    else referrerPatternScan hostname rest

/-- Loop over the AI referrer registry: first entry with a matching domain
fragment wins and is never blockable. -/
def aiReferrerScan (hostname : String) : List AiReferrerInfo → DetectionResult
  | [] => negativeResult
  | aiReferrer :: rest =>
    match referrerPatternScan hostname aiReferrer.patterns with
    | some pattern =>
      { isBot := false, shouldBlock := false, sourceType := SourceType.aiReferrer,
        matchedPattern := some pattern, info := ResultInfo.ofAiReferrer aiReferrer }
    | Option.none => aiReferrerScan hostname rest

/-- Referrer classifier `detectAiReferrer` of `src/core/spyglasses.ts`
(lines 461-534): URL parse on success yields the lowercased hostname,
on failure the raw lowercased referrer string. -/
def Spyglasses.detectAiReferrer (env : RegexEnv) (s : Spyglasses) (referrer : String) :
    DetectionResult :=
  if referrer = "" then negativeResult
  else
    let hostname :=
      match env.parseHostname referrer with
      | some host => strToLower host
      | Option.none => strToLower referrer
    aiReferrerScan hostname s.aiReferrers

/-- Combined facade `detect` of `src/core/spyglasses.ts` (lines 542-581). -/
def Spyglasses.detect (env : RegexEnv) (s : Spyglasses) (userAgent : String)
    (referrer : Option String) : DetectionResult :=
  let botResult := Spyglasses.detectBot env s userAgent
  if botResult.isBot then botResult
  else
    match referrer with
    | some r =>
      if r = "" then negativeResult
      else
        let referrerResult := Spyglasses.detectAiReferrer env s r
        if referrerResult.sourceType = SourceType.aiReferrer then referrerResult
        else negativeResult
    | Option.none => negativeResult

/-- Pattern sync `syncPatterns` of `src/core/spyglasses.ts` (lines 234-305),
modelled from the point where the fetched body has been parsed; transport is
external. Returns the surfaced value (error string or echoed payload) and the
successor state. `now` stands for `Date.now()`. -/
def Spyglasses.syncPatterns (s : Spyglasses) (data : ApiPatternResponse) (now : Nat) :
    (String ⊕ ApiPatternResponse) × Spyglasses :=
  if s.apiKey = "" then (Sum.inl ("No API key set for pattern sync"), s)
  else
    match data.patterns with
    | PatternsField.arr patterns =>
      (Sum.inr data,
        { s with
            patterns := patterns,
            aiReferrers := data.aiReferrers.getD [],
            patternVersion := jsOr data.version ("1.0.0"),
            lastPatternSync := now,
            patternRegexCache := [] })
    | _ => (Sum.inl ("Invalid pattern response format"), s)

/-- Accessor `getPatterns` (line 746-748); the source returns a fresh array
copy `[...this.patterns]`, which denotes the same list. -/
def Spyglasses.getPatterns (s : Spyglasses) : List BotPattern :=
  s.patterns

/-- Accessor `getAiReferrers`. -/
def Spyglasses.getAiReferrers (s : Spyglasses) : List AiReferrerInfo :=
  s.aiReferrers

/-- Accessor `getPatternVersion`. -/
def Spyglasses.getPatternVersion (s : Spyglasses) : String :=
  s.patternVersion

/-- Fixture: a concrete bot pattern used by witness theorems. -/
def sampleBotPattern : BotPattern :=
  { pattern := "GPTBot", type := "gptbot", category := "AI Crawler",
    subcategory := "Model Training Crawlers", company := some ("OpenAI"),
    isCompliant := true, isAiModelTrainer := true, intent := some ("DataCollection") }

/-- Fixture: a pattern whose signature fails to compile as a regex. -/
def badBotPattern : BotPattern :=
  { pattern := "(", type := "bad", category := "X", subcategory := "Y" }

/-- Fixture: a concrete AI referrer entry. -/
def sampleReferrer : AiReferrerInfo :=
  { id := "chatgpt", name := "ChatGPT", company := "OpenAI",
    patterns := ["chat.openai.com", "chatgpt.com"] }

/-- Fixture: a concrete instance state. -/
def sampleSpyglasses : Spyglasses :=
  { apiKey := "key", patterns := [sampleBotPattern], aiReferrers := [sampleReferrer] }

/-- Fixture: a computable regex oracle for witnesses; every signature except
the malformed `"("` compiles, to a substring matcher. -/
def substringRegexEnv : RegexEnv :=
  { compile := fun pattern =>
      if pattern = "(" then Option.none else some (fun ua => strContains ua pattern),
    parseHostname := fun _ => Option.none }

/-- Fixture: a remote payload whose `patterns` field is missing. -/
def sampleApiResponse : ApiPatternResponse :=
  { version := some ("2.0.0"), patterns := PatternsField.missing }

/-- Fixture: a concrete compiled detector pattern. -/
def sampleCompiled : Detector.CompiledPattern :=
  { regexp := fun ua => strContains ua ("GPTBot"), name := "chatgpt",
    category := "AI Agent", company := some ("OpenAI"), specificity := 22,
    originalPattern := "GPTBot" }

theorem getPatternSpecificity_eq_formula (pattern : String) :
    getPatternSpecificity pattern = specificityFormula pattern := by
  unfold getPatternSpecificity specificityFormula
  split <;> split <;> split <;> ring

theorem specificity_pure_literal (s : String)
    (h1 : s.data.countP isMetaChar = 0)
    (h2 : strContains s versionMarker = false)
    (h3 : brandMarkers.any (fun b => strContains s b) = false)
    (h4 : isGenericBareWord s = false) :
    getPatternSpecificity s = (s.data.countP isAlnumChar : Int) * 2 := by
  rw [getPatternSpecificity_eq_formula]
  unfold specificityFormula
  rw [h1, h2, h3, h4]
  simp

theorem ruleChainEq (a1 a2 a3 a4 b1 b2 b3 b4 t : Bool) :
    (if a1 then false
     else if a2 || a3 || a4 then false
     else if b1 then true
     else if b2 || b3 || b4 then true
     else if t then true
     else false)
      = (!(a1 || a2 || a3 || a4) && (b1 || b2 || b3 || b4 || t)) := by
  revert a1 a2 a3 a4 b1 b2 b3 b4 t
  decide

/-- C1: `shouldBlockPattern` resolves with the exact six-step precedence of
the specification (first decisive rule wins), and consequently an allow
directive at any granularity forces a `false` verdict regardless of the
block directives and of the model-trainer switch. -/
theorem claim_C1_rule_precedence (s : Spyglasses) (patternData : BotPattern) :
    s.shouldBlockPattern patternData
        = ruleResolverSpec s.customAllows s.customBlocks s.blockAiModelTrainers patternData
      ∧ s.shouldBlockPattern patternData
        = (!(directiveMatches s.customAllows patternData)
            && (directiveMatches s.customBlocks patternData
                || (s.blockAiModelTrainers && patternData.isAiModelTrainer))) := by
  constructor
  · rfl
  · unfold Spyglasses.shouldBlockPattern directiveMatches
    dsimp only
    exact ruleChainEq _ _ _ _ _ _ _ _ _

/-- C2: for every signature string, the specificity score equals exactly
twice the alphanumeric-character count, minus three per occurrence of the
metacharacters `.` `*` `+` `?`, plus 5 for the literal substring `\/[0-9]`,
plus 10 for a case-sensitive brand marker, minus 15 when the whole string is
case-insensitively `bot`, `crawler` or `spider`; no other factor. -/
theorem claim_C2_specificity_score (pattern : String) :
    getPatternSpecificity pattern
      = (pattern.data.countP isAlnumChar : Int) * 2
          - (pattern.data.countP isMetaChar : Int) * 3
          + (if strContains pattern versionMarker then 5 else 0)
          + (if brandMarkers.any (fun b => strContains pattern b) then 10 else 0)
          - (if isGenericBareWord pattern then 15 else 0) :=
  getPatternSpecificity_eq_formula pattern

/-- C7 counterexample: `"bot"` and `"ab"` contain no wildcard metacharacters
and have different literal-character counts (3 versus 2), yet the signature
with more literal characters scores strictly lower, because the bare-generic
penalty of −15 applies to `"bot"`. -/
theorem claim_C7_counterexample :
    ("bot".data.countP isMetaChar = 0) ∧ ("ab".data.countP isMetaChar = 0)
      ∧ ("ab".data.countP isAlnumChar < "bot".data.countP isAlnumChar)
      ∧ getPatternSpecificity "bot" < getPatternSpecificity "ab" := by
  decide

/-- C7 (amended): among wildcard-free signatures that additionally trigger
none of the three fixed-score adjustments (version marker, brand marker,
bare-generic penalty), the one with more literal characters receives the
strictly higher specificity score. -/
theorem claim_C7_literal_monotonic (s t : String)
    (hsMeta : s.data.countP isMetaChar = 0)
    (htMeta : t.data.countP isMetaChar = 0)
    (hsVer : strContains s versionMarker = false)
    (htVer : strContains t versionMarker = false)
    (hsBrand : brandMarkers.any (fun b => strContains s b) = false)
    (htBrand : brandMarkers.any (fun b => strContains t b) = false)
    (hsBare : isGenericBareWord s = false)
    (htBare : isGenericBareWord t = false)
    (hcount : t.data.countP isAlnumChar < s.data.countP isAlnumChar) :
    getPatternSpecificity t < getPatternSpecificity s := by
  rw [specificity_pure_literal s hsMeta hsVer hsBrand hsBare,
    specificity_pure_literal t htMeta htVer htBrand htBare]
  omega

theorem claim_C7_witness :
    "abc".data.countP isAlnumChar < "abcd".data.countP isAlnumChar
      ∧ getPatternSpecificity "abc" < getPatternSpecificity "abcd" :=
  ⟨by decide,
    claim_C7_literal_monotonic "abcd" "abc" (by decide) (by decide) (by decide) (by decide)
      (by decide) (by decide) (by decide) (by decide) (by decide)⟩

theorem syncPatterns_invalid (s : Spyglasses) (data : ApiPatternResponse) (now : Nat)
    (h : data.patterns = PatternsField.missing ∨ data.patterns = PatternsField.nonArray) :
    s.syncPatterns data now
      = (Sum.inl (if s.apiKey = "" then "No API key set for pattern sync"
                  else "Invalid pattern response format"), s) := by
  unfold Spyglasses.syncPatterns
  by_cases hk : s.apiKey = ""
  · rw [if_pos hk, if_pos hk]
  · rw [if_neg hk, if_neg hk]
    rcases h with h | h <;> rw [h]

/-- C5: a sync payload whose `patterns` field is missing or not an array is
rejected as a whole: the operation surfaces an error string and the registry
state (patterns, referrers, version, compiled-regex cache) is retained. -/
theorem claim_C5_sync_all_or_nothing (s : Spyglasses) (data : ApiPatternResponse) (now : Nat)
    (h : data.patterns = PatternsField.missing ∨ data.patterns = PatternsField.nonArray) :
    (∃ message, (s.syncPatterns data now).1 = Sum.inl message)
      ∧ (s.syncPatterns data now).2 = s
      ∧ (s.syncPatterns data now).2.getPatterns = s.getPatterns
      ∧ (s.syncPatterns data now).2.getAiReferrers = s.getAiReferrers
      ∧ (s.syncPatterns data now).2.getPatternVersion = s.getPatternVersion
      ∧ (s.syncPatterns data now).2.patternRegexCache = s.patternRegexCache := by
  rw [syncPatterns_invalid s data now h]
  exact ⟨⟨_, rfl⟩, rfl, rfl, rfl, rfl, rfl⟩

theorem claim_C5_witness :
    (sampleApiResponse.patterns = PatternsField.missing
        ∨ sampleApiResponse.patterns = PatternsField.nonArray)
      ∧ (∃ message, (sampleSpyglasses.syncPatterns sampleApiResponse 42).1 = Sum.inl message)
      ∧ (sampleSpyglasses.syncPatterns sampleApiResponse 42).2 = sampleSpyglasses :=
  ⟨Or.inl rfl,
    (claim_C5_sync_all_or_nothing sampleSpyglasses sampleApiResponse 42 (Or.inl rfl)).1,
    (claim_C5_sync_all_or_nothing sampleSpyglasses sampleApiResponse 42 (Or.inl rfl)).2.1⟩

theorem aiReferrerScan_fields (hostname : String) (l : List AiReferrerInfo) :
    (aiReferrerScan hostname l).isBot = false
      ∧ (aiReferrerScan hostname l).shouldBlock = false
      ∧ ((aiReferrerScan hostname l).sourceType = SourceType.aiReferrer
          ∨ (aiReferrerScan hostname l).sourceType = SourceType.none) := by
  induction l with
  | nil => exact ⟨rfl, rfl, Or.inr rfl⟩
  | cons r rest ih =>
    unfold aiReferrerScan
    cases hp : referrerPatternScan hostname r.patterns
    · exact ih
    · exact ⟨rfl, rfl, Or.inl rfl⟩

/-- C6: the referrer classifier never reports a bot and never blocks: every
result has `isBot = false` and `shouldBlock = false`, and its source type is
either `ai_referrer` (a match) or `none` (no match). -/
theorem claim_C6_referrer_never_bot (env : RegexEnv) (s : Spyglasses) (referrer : String) :
    (Spyglasses.detectAiReferrer env s referrer).isBot = false
      ∧ (Spyglasses.detectAiReferrer env s referrer).shouldBlock = false
      ∧ ((Spyglasses.detectAiReferrer env s referrer).sourceType = SourceType.aiReferrer
          ∨ (Spyglasses.detectAiReferrer env s referrer).sourceType = SourceType.none) := by
  unfold Spyglasses.detectAiReferrer
  split
  · exact ⟨rfl, rfl, Or.inr rfl⟩
  · exact aiReferrerScan_fields _ s.aiReferrers

theorem detectBotScan_cases (env : RegexEnv) (s : Spyglasses) (userAgent : String)
    (l : List BotPattern) :
    Spyglasses.detectBotScan env s userAgent l = negativeResult
      ∨ ((Spyglasses.detectBotScan env s userAgent l).isBot = true
          ∧ (Spyglasses.detectBotScan env s userAgent l).sourceType = SourceType.bot) := by
  induction l with
  | nil => exact Or.inl rfl
  | cons p rest ih =>
    unfold Spyglasses.detectBotScan
    cases hc : env.compile p.pattern with
    | none => exact ih
    | some regex =>
      dsimp only
      by_cases hm : regex userAgent = true
      · rw [if_pos hm]
        exact Or.inr ⟨rfl, rfl⟩
      · rw [if_neg hm]
        exact ih

theorem detectBot_cases (env : RegexEnv) (s : Spyglasses) (userAgent : String) :
    Spyglasses.detectBot env s userAgent = negativeResult
      ∨ ((Spyglasses.detectBot env s userAgent).isBot = true
          ∧ (Spyglasses.detectBot env s userAgent).sourceType = SourceType.bot) := by
  unfold Spyglasses.detectBot
  split
  · exact Or.inl rfl
  · exact detectBotScan_cases env s userAgent s.patterns

/-- C10: across `detectBot`, `detectAiReferrer` and the combined `detect`,
a result may only have `shouldBlock = true` when it also has `isBot = true`
and `sourceType = 'bot'`; results with source type `none` or `ai_referrer`
always carry `shouldBlock = false`. -/
theorem claim_C10_block_implies_bot (env : RegexEnv) (s : Spyglasses)
    (userAgent referrerStr : String) (referrer : Option String) :
    ((Spyglasses.detectBot env s userAgent).shouldBlock = true →
        (Spyglasses.detectBot env s userAgent).isBot = true
          ∧ (Spyglasses.detectBot env s userAgent).sourceType = SourceType.bot)
      ∧ ((Spyglasses.detectAiReferrer env s referrerStr).shouldBlock = true →
          (Spyglasses.detectAiReferrer env s referrerStr).isBot = true
            ∧ (Spyglasses.detectAiReferrer env s referrerStr).sourceType = SourceType.bot)
      ∧ ((Spyglasses.detect env s userAgent referrer).shouldBlock = true →
          (Spyglasses.detect env s userAgent referrer).isBot = true
            ∧ (Spyglasses.detect env s userAgent referrer).sourceType = SourceType.bot) := by
  refine ⟨?_, ?_, ?_⟩
  · intro hb
    rcases detectBot_cases env s userAgent with h | h
    · rw [h] at hb; cases hb
    · exact h
  · intro hb
    rw [(claim_C6_referrer_never_bot env s referrerStr).2.1] at hb
    cases hb
  · intro hb
    unfold Spyglasses.detect at hb ⊢
    by_cases hbot : (Spyglasses.detectBot env s userAgent).isBot
    · rw [if_pos hbot] at hb ⊢
      rcases detectBot_cases env s userAgent with h | h
      · rw [h] at hbot; cases hbot
      · exact h
    · rw [if_neg hbot] at hb ⊢
      cases referrer with
      | none => cases hb
      | some r =>
        dsimp only at hb ⊢
        by_cases hr : r = ""
        · rw [if_pos hr] at hb ⊢; cases hb
        · rw [if_neg hr] at hb ⊢
          by_cases hsrc : (Spyglasses.detectAiReferrer env s r).sourceType = SourceType.aiReferrer
          · rw [if_pos hsrc] at hb ⊢
            rw [(claim_C6_referrer_never_bot env s r).2.1] at hb
            cases hb
          · rw [if_neg hsrc] at hb ⊢; cases hb

/-- C4: the combined facade runs bot detection first; a positive bot result
is returned as-is (the referrer classifier result never enters); otherwise
the result is the referrer classification when a referrer was supplied and
matched with source type `ai_referrer`, and the negative result otherwise. -/
theorem claim_C4_facade_priority (env : RegexEnv) (s : Spyglasses) (userAgent : String)
    (referrer : Option String) :
    ((Spyglasses.detectBot env s userAgent).isBot = true →
        Spyglasses.detect env s userAgent referrer = Spyglasses.detectBot env s userAgent)
      ∧ ((Spyglasses.detectBot env s userAgent).isBot = false →
          Spyglasses.detect env s userAgent referrer
            = match referrer with
              | some r =>
                if (Spyglasses.detectAiReferrer env s r).sourceType = SourceType.aiReferrer
                then Spyglasses.detectAiReferrer env s r
                else negativeResult
              | Option.none => negativeResult) := by
  constructor
  · intro hbot
    unfold Spyglasses.detect
    rw [if_pos hbot]
  · intro hbot
    have hbot' : ¬((Spyglasses.detectBot env s userAgent).isBot = true) := by
      rw [hbot]
      exact Bool.false_ne_true
    unfold Spyglasses.detect
    rw [if_neg hbot']
    cases referrer with
    | none => rfl
    | some r =>
      dsimp only
      by_cases hr : r = ""
      · rw [if_pos hr]
        have hneg : Spyglasses.detectAiReferrer env s r = negativeResult := by
          unfold Spyglasses.detectAiReferrer
          rw [if_pos hr]
        rw [hneg]
        rfl
      · rw [if_neg hr]

theorem claim_C4_witness :
    (Spyglasses.detectBot substringRegexEnv sampleSpyglasses "GPTBot/1.0").isBot = true
      ∧ Spyglasses.detect substringRegexEnv sampleSpyglasses "GPTBot/1.0"
            (some ("https://chat.openai.com/c/1"))
          = Spyglasses.detectBot substringRegexEnv sampleSpyglasses "GPTBot/1.0" :=
  ⟨by decide,
    (claim_C4_facade_priority substringRegexEnv sampleSpyglasses "GPTBot/1.0"
      (some ("https://chat.openai.com/c/1"))).1 (by decide)⟩

theorem claim_C10_witness :
    ((Spyglasses.detectBot substringRegexEnv sampleSpyglasses "GPTBot/1.0").shouldBlock = true →
        (Spyglasses.detectBot substringRegexEnv sampleSpyglasses "GPTBot/1.0").isBot = true
          ∧ (Spyglasses.detectBot substringRegexEnv sampleSpyglasses "GPTBot/1.0").sourceType
              = SourceType.bot)
      ∧ ((Spyglasses.detectAiReferrer substringRegexEnv sampleSpyglasses
              "https://chat.openai.com/c/1").shouldBlock = true →
          (Spyglasses.detectAiReferrer substringRegexEnv sampleSpyglasses
              "https://chat.openai.com/c/1").isBot = true
            ∧ (Spyglasses.detectAiReferrer substringRegexEnv sampleSpyglasses
                "https://chat.openai.com/c/1").sourceType = SourceType.bot)
      ∧ ((Spyglasses.detect substringRegexEnv sampleSpyglasses "GPTBot/1.0"
              (some ("https://chat.openai.com/c/1"))).shouldBlock = true →
          (Spyglasses.detect substringRegexEnv sampleSpyglasses "GPTBot/1.0"
              (some ("https://chat.openai.com/c/1"))).isBot = true
            ∧ (Spyglasses.detect substringRegexEnv sampleSpyglasses "GPTBot/1.0"
                (some ("https://chat.openai.com/c/1"))).sourceType = SourceType.bot) :=
  claim_C10_block_implies_bot substringRegexEnv sampleSpyglasses "GPTBot/1.0"
    "https://chat.openai.com/c/1" (some ("https://chat.openai.com/c/1"))

theorem detectBotScan_patterns_update (env : RegexEnv) (s : Spyglasses) (ps : List BotPattern)
    (userAgent : String) (l : List BotPattern) :
    Spyglasses.detectBotScan env { s with patterns := ps } userAgent l
      = Spyglasses.detectBotScan env s userAgent l := by
  induction l with
  | nil => rfl
  | cons p rest ih =>
    unfold Spyglasses.detectBotScan
    cases hc : env.compile p.pattern with
    | none => exact ih
    | some regex =>
      dsimp only
      by_cases hm : regex userAgent = true
      · rw [if_pos hm, if_pos hm]
        rfl
      · rw [if_neg hm, if_neg hm]
        exact ih

theorem detectBotScan_skip (env : RegexEnv) (s : Spyglasses) (userAgent : String)
    (bad : BotPattern) (hbad : env.compile bad.pattern = Option.none)
    (ps1 ps2 : List BotPattern) :
    Spyglasses.detectBotScan env s userAgent (ps1 ++ bad :: ps2)
      = Spyglasses.detectBotScan env s userAgent (ps1 ++ ps2) := by
  induction ps1 with
  | nil =>
    simp only [List.nil_append]
    conv_lhs => rw [Spyglasses.detectBotScan]
    rw [hbad]
  | cons p rest ih =>
    simp only [List.cons_append]
    unfold Spyglasses.detectBotScan
    cases hc : env.compile p.pattern with
    | none => exact ih
    | some regex =>
      dsimp only
      by_cases hm : regex userAgent = true
      · rw [if_pos hm, if_pos hm]
      · rw [if_neg hm, if_neg hm]
        exact ih

/-- C9: a pattern whose signature fails to compile is skipped without
aborting detection: removing it from the list leaves the `detectBot` result
unchanged, so a user agent matched by a later valid pattern is still
detected as a bot. -/
theorem claim_C9_malformed_pattern_skipped (env : RegexEnv) (s : Spyglasses)
    (userAgent : String) (ps1 ps2 : List BotPattern) (bad : BotPattern)
    (hbad : env.compile bad.pattern = Option.none) :
    Spyglasses.detectBot env { s with patterns := ps1 ++ bad :: ps2 } userAgent
        = Spyglasses.detectBot env { s with patterns := ps1 ++ ps2 } userAgent
      ∧ ((Spyglasses.detectBot env { s with patterns := ps1 ++ ps2 } userAgent).isBot = true →
          (Spyglasses.detectBot env { s with patterns := ps1 ++ bad :: ps2 } userAgent).isBot
            = true) := by
  have key : Spyglasses.detectBot env { s with patterns := ps1 ++ bad :: ps2 } userAgent
      = Spyglasses.detectBot env { s with patterns := ps1 ++ ps2 } userAgent := by
    unfold Spyglasses.detectBot
    by_cases hua : userAgent = ""
    · rw [if_pos hua, if_pos hua]
    · rw [if_neg hua, if_neg hua]
      calc Spyglasses.detectBotScan env { s with patterns := ps1 ++ bad :: ps2 } userAgent
              (ps1 ++ bad :: ps2)
            = Spyglasses.detectBotScan env s userAgent (ps1 ++ bad :: ps2) :=
              detectBotScan_patterns_update env s (ps1 ++ bad :: ps2) userAgent (ps1 ++ bad :: ps2)
        _ = Spyglasses.detectBotScan env s userAgent (ps1 ++ ps2) :=
              detectBotScan_skip env s userAgent bad hbad ps1 ps2
        _ = Spyglasses.detectBotScan env { s with patterns := ps1 ++ ps2 } userAgent
              (ps1 ++ ps2) :=
              (detectBotScan_patterns_update env s (ps1 ++ ps2) userAgent (ps1 ++ ps2)).symm
  refine ⟨key, fun h => ?_⟩
  rw [key]
  exact h

theorem claim_C9_witness :
    substringRegexEnv.compile badBotPattern.pattern = Option.none
      ∧ Spyglasses.detectBot substringRegexEnv
            { sampleSpyglasses with patterns := [] ++ badBotPattern :: [sampleBotPattern] }
            "GPTBot/1.0"
          = Spyglasses.detectBot substringRegexEnv
              { sampleSpyglasses with patterns := [] ++ [sampleBotPattern] } "GPTBot/1.0" :=
  ⟨rfl,
    (claim_C9_malformed_pattern_skipped substringRegexEnv sampleSpyglasses "GPTBot/1.0"
      [] [sampleBotPattern] badBotPattern rfl).1⟩

namespace Detector

theorem insertBySpecificity_ne_nil (x : CompiledPattern) (l : List CompiledPattern) :
    insertBySpecificity x l ≠ [] := by
  cases l with
  | nil => simp [insertBySpecificity]
  | cons y ys =>
    unfold insertBySpecificity
    split <;> simp

theorem mem_insertBySpecificity (a x : CompiledPattern) (l : List CompiledPattern) :
    a ∈ insertBySpecificity x l ↔ a = x ∨ a ∈ l := by
  induction l with
  | nil => simp [insertBySpecificity]
  | cons y ys ih =>
    unfold insertBySpecificity
    split
    · simp [List.mem_cons]
    · simp only [List.mem_cons, ih]
      tauto

theorem sortBySpecificity_eq_nil (l : List CompiledPattern)
    (h : sortBySpecificity l = []) : l = [] := by
  cases l with
  | nil => rfl
  | cons x xs =>
    unfold sortBySpecificity at h
    exact absurd h (insertBySpecificity_ne_nil x (sortBySpecificity xs))

theorem sortBySpecificity_cons_of_ne_nil (l : List CompiledPattern) (h : l ≠ []) :
    ∃ b rest, sortBySpecificity l = b :: rest := by
  cases hs : sortBySpecificity l with
  | nil => exact absurd (sortBySpecificity_eq_nil l hs) h
  | cons b rest => exact ⟨b, rest, rfl⟩

theorem mem_sortBySpecificity (a : CompiledPattern) (l : List CompiledPattern) :
    a ∈ sortBySpecificity l ↔ a ∈ l := by
  induction l with
  | nil => simp [sortBySpecificity]
  | cons x xs ih =>
    unfold sortBySpecificity
    rw [mem_insertBySpecificity, ih, List.mem_cons]

theorem sortBySpecificity_head_max (l : List CompiledPattern) :
    ∀ b rest, sortBySpecificity l = b :: rest →
      ∀ x ∈ l, x.specificity ≤ b.specificity := by
  induction l with
  | nil =>
    intro b rest h
    cases h
  | cons a t ih =>
    intro b rest h x hx
    unfold sortBySpecificity at h
    cases hs : sortBySpecificity t with
    | nil =>
      rw [hs] at h
      unfold insertBySpecificity at h
      injection h with h1 h2
      subst h1
      have ht : t = [] := sortBySpecificity_eq_nil t hs
      rcases List.mem_cons.mp hx with rfl | hxt
      · exact le_refl _
      · rw [ht] at hxt
        cases hxt
    | cons c cs =>
      rw [hs] at h
      unfold insertBySpecificity at h
      by_cases hca : c.specificity ≤ a.specificity
      · rw [if_pos hca] at h
        injection h with h1 h2
        subst h1
        rcases List.mem_cons.mp hx with rfl | hxt
        · exact le_refl _
        · exact le_trans (ih c cs hs x hxt) hca
      · rw [if_neg hca] at h
        injection h with h1 h2
        subst h1
        rcases List.mem_cons.mp hx with rfl | hxt
        · exact le_of_lt (not_le.mp hca)
        · exact ih c cs hs x hxt

end Detector

/-- C3: for a non-empty user agent, the detailed classifier evaluates the
curated group first; when it has matches the fallback group is ignored (the
result equals the one computed with an empty fallback group), the matches
are sorted by specificity descending and the head — a maximal-specificity
match — gives the classification, with confidence 0.9 for exactly one match
and 0.7 for two or more; the same rule applies to the fallback group when no
curated pattern matches. -/
theorem claim_C3_detailed_classifier
    (customPatterns crawlerUserAgentPatterns : List Detector.CompiledPattern)
    (userAgent : String) (hua : userAgent ≠ "") :
    ((customPatterns.filter (fun p => p.regexp userAgent)) ≠ [] →
        Detector.detectDetailed customPatterns crawlerUserAgentPatterns userAgent
          = Detector.detectDetailed customPatterns [] userAgent)
      ∧ ((customPatterns.filter (fun p => p.regexp userAgent)) ≠ [] →
          ∃ best rest,
            Detector.sortBySpecificity (customPatterns.filter (fun p => p.regexp userAgent))
                = best :: rest
              ∧ best ∈ customPatterns.filter (fun p => p.regexp userAgent)
              ∧ (∀ q ∈ customPatterns.filter (fun p => p.regexp userAgent),
                  q.specificity ≤ best.specificity)
              ∧ Detector.detectDetailed customPatterns crawlerUserAgentPatterns userAgent
                  = { isBot := true, category := some best.category, name := some best.name,
                      company := best.company,
                      confidence := some
                        (if (customPatterns.filter (fun p => p.regexp userAgent)).length = 1
                         then Detector.confidenceSingle else Detector.confidenceMulti) })
      ∧ ((customPatterns.filter (fun p => p.regexp userAgent)) = [] →
          (crawlerUserAgentPatterns.filter (fun p => p.regexp userAgent)) ≠ [] →
          ∃ best rest,
            Detector.sortBySpecificity
                (crawlerUserAgentPatterns.filter (fun p => p.regexp userAgent))
                = best :: rest
              ∧ best ∈ crawlerUserAgentPatterns.filter (fun p => p.regexp userAgent)
              ∧ (∀ q ∈ crawlerUserAgentPatterns.filter (fun p => p.regexp userAgent),
                  q.specificity ≤ best.specificity)
              ∧ Detector.detectDetailed customPatterns crawlerUserAgentPatterns userAgent
                  = { isBot := true, category := some best.category, name := some best.name,
                      company := best.company,
                      confidence := some
                        (if (crawlerUserAgentPatterns.filter
                              (fun p => p.regexp userAgent)).length = 1
                         then Detector.confidenceSingle else Detector.confidenceMulti) }) := by
  refine ⟨?_, ?_, ?_⟩
  · intro hne
    obtain ⟨b, rest, hs⟩ :=
      Detector.sortBySpecificity_cons_of_ne_nil
        (customPatterns.filter (fun p => p.regexp userAgent)) hne
    unfold Detector.detectDetailed
    rw [if_neg hua, if_neg hua]
    dsimp only
    rw [hs]
  · intro hne
    obtain ⟨b, rest, hs⟩ :=
      Detector.sortBySpecificity_cons_of_ne_nil
        (customPatterns.filter (fun p => p.regexp userAgent)) hne
    refine ⟨b, rest, hs, ?_, ?_, ?_⟩
    · exact (Detector.mem_sortBySpecificity b _).mp (hs ▸ List.mem_cons_self b rest)
    · exact fun q hq => Detector.sortBySpecificity_head_max _ b rest hs q hq
    · unfold Detector.detectDetailed
      rw [if_neg hua]
      dsimp only
      rw [hs]
  · intro hc hne
    obtain ⟨b, rest, hs⟩ :=
      Detector.sortBySpecificity_cons_of_ne_nil
        (crawlerUserAgentPatterns.filter (fun p => p.regexp userAgent)) hne
    refine ⟨b, rest, hs, ?_, ?_, ?_⟩
    · exact (Detector.mem_sortBySpecificity b _).mp (hs ▸ List.mem_cons_self b rest)
    · exact fun q hq => Detector.sortBySpecificity_head_max _ b rest hs q hq
    · unfold Detector.detectDetailed
      rw [if_neg hua]
      dsimp only
      rw [hc]
      dsimp only [Detector.sortBySpecificity]
      rw [hs]

theorem any_eq_false_of_filter_eq_nil {α : Type} (p : α → Bool) (l : List α)
    (h : l.filter p = []) : l.any p = false := by
  rw [List.any_eq_false]
  intro x hx
  exact (List.filter_eq_nil_iff.mp h) x hx

theorem any_eq_true_of_filter_ne_nil {α : Type} (p : α → Bool) (l : List α)
    (h : l.filter p ≠ []) : l.any p = true := by
  cases hany : l.any p with
  | true => rfl
  | false => exact absurd (List.filter_eq_nil_iff.mpr (List.any_eq_false.mp hany)) h

theorem filter_ne_nil_of_any_eq_true {α : Type} (p : α → Bool) (l : List α)
    (h : l.any p = true) : l.filter p ≠ [] := by
  intro hnil
  rw [any_eq_false_of_filter_eq_nil p l hnil] at h
  cases h

theorem detectScan_isBot (userAgent : String) (l : List Detector.CompiledPattern) :
    (Detector.detectScan userAgent l).isBot = l.any (fun p => p.regexp userAgent) := by
  induction l with
  | nil => rfl
  | cons p rest ih =>
    unfold Detector.detectScan
    by_cases hp : p.regexp userAgent = true
    · rw [if_pos hp]
      simp [hp]
    · rw [if_neg hp]
      rw [Bool.not_eq_true] at hp
      simp [hp, ih]

theorem detect_isBot (customPatterns crawlerUserAgentPatterns : List Detector.CompiledPattern)
    (userAgent : String) :
    (Detector.detect customPatterns crawlerUserAgentPatterns userAgent).isBot
      = (customPatterns.any (fun p => p.regexp userAgent)
          || crawlerUserAgentPatterns.any (fun p => p.regexp userAgent)) := by
  unfold Detector.detect
  rw [detectScan_isBot, List.any_append]

/-- C8 counterexample: with the pattern groups empty, the user agent
`"crawler"` matches no pattern at all, so the fast entry point reports
`isBot = false`, while the detailed classifier reports `isBot = true`
through its last-resort generic-substring check, which the fast path does
not perform. The two entry points therefore do not agree on bot-ness. -/
theorem claim_C8_counterexample :
    (Detector.detect [] [] "crawler").isBot = false
      ∧ (Detector.detectDetailed [] [] "crawler").isBot = true := by
  constructor
  · decide
  · decide

/-- C8 (amended): for every non-empty user agent, a positive fast-path
result implies a positive detailed result; and on every non-empty user agent
whose lowercased form contains none of the substrings `scraper`, `crawler`,
`spider`, the two entry points agree exactly on bot-ness. -/
theorem claim_C8_fast_detailed_agreement
    (customPatterns crawlerUserAgentPatterns : List Detector.CompiledPattern)
    (userAgent : String) (hua : userAgent ≠ "") :
    ((Detector.detect customPatterns crawlerUserAgentPatterns userAgent).isBot = true →
        (Detector.detectDetailed customPatterns crawlerUserAgentPatterns userAgent).isBot
          = true)
      ∧ (strContains (strToLower userAgent) ("scraper") = false →
          strContains (strToLower userAgent) ("crawler") = false →
          strContains (strToLower userAgent) ("spider") = false →
          (Detector.detect customPatterns crawlerUserAgentPatterns userAgent).isBot
            = (Detector.detectDetailed customPatterns crawlerUserAgentPatterns userAgent).isBot) := by
  have hdet := detect_isBot customPatterns crawlerUserAgentPatterns userAgent
  constructor
  · intro hb
    rw [hdet] at hb
    unfold Detector.detectDetailed
    rw [if_neg hua]
    dsimp only
    cases hs1 : Detector.sortBySpecificity
        (customPatterns.filter (fun p => p.regexp userAgent)) with
    | cons b rest => rfl
    | nil =>
      have hc := Detector.sortBySpecificity_eq_nil _ hs1
      rw [any_eq_false_of_filter_eq_nil _ _ hc, Bool.false_or] at hb
      obtain ⟨b, rest, hs2⟩ :=
        Detector.sortBySpecificity_cons_of_ne_nil _ (filter_ne_nil_of_any_eq_true _ _ hb)
      rw [hs2]
  · intro h1 h2 h3
    rw [hdet]
    unfold Detector.detectDetailed
    rw [if_neg hua]
    dsimp only
    cases hs1 : Detector.sortBySpecificity
        (customPatterns.filter (fun p => p.regexp userAgent)) with
    | cons b rest =>
      have hcf : customPatterns.filter (fun p => p.regexp userAgent) ≠ [] := by
        intro hnil
        rw [hnil] at hs1
        cases hs1
      rw [any_eq_true_of_filter_ne_nil _ _ hcf, Bool.true_or]
    | nil =>
      have hc := Detector.sortBySpecificity_eq_nil _ hs1
      rw [any_eq_false_of_filter_eq_nil _ _ hc, Bool.false_or]
      cases hs2 : Detector.sortBySpecificity
          (crawlerUserAgentPatterns.filter (fun p => p.regexp userAgent)) with
      | cons b rest =>
        have hff : crawlerUserAgentPatterns.filter (fun p => p.regexp userAgent) ≠ [] := by
          intro hnil
          rw [hnil] at hs2
          cases hs2
        rw [any_eq_true_of_filter_ne_nil _ _ hff]
      | nil =>
        have hf := Detector.sortBySpecificity_eq_nil _ hs2
        rw [any_eq_false_of_filter_eq_nil _ _ hf]
        rw [h1, h2, h3]
        rfl

theorem claim_C3_witness :
    ("GPTBot/1.0" : String) ≠ ""
      ∧ ([sampleCompiled].filter (fun p => p.regexp "GPTBot/1.0")) ≠ []
      ∧ Detector.detectDetailed [sampleCompiled] [sampleCompiled] "GPTBot/1.0"
          = Detector.detectDetailed [sampleCompiled] [] "GPTBot/1.0" :=
  ⟨by decide, fun h => List.noConfusion h,
    (claim_C3_detailed_classifier [sampleCompiled] [sampleCompiled] "GPTBot/1.0"
      (by decide)).1 (fun h => List.noConfusion h)⟩

theorem claim_C8_witness :
    ("GPTBot/1.0" : String) ≠ ""
      ∧ strContains (strToLower "GPTBot/1.0") ("scraper") = false
      ∧ (Detector.detect [sampleCompiled] [] "GPTBot/1.0").isBot
          = (Detector.detectDetailed [sampleCompiled] [] "GPTBot/1.0").isBot :=
  ⟨by decide, by decide,
    (claim_C8_fast_detailed_agreement [sampleCompiled] [] "GPTBot/1.0" (by decide)).2
      (by decide) (by decide) (by decide)⟩
